import Mathlib

/-!
Shallow embedding of the goutils object-storage client (package objclient):
the boolean-string helper, the S3 adapter construction/validation, the
write/exist/remove/list paths of both the S3 and the OSS adapters, and the
stall-watchdog TimeoutReader.  Backend SDK calls (minio, aliyun-oss) are
external collaborators; they are modelled as explicit inputs (the response
the SDK would return), and each adapter function is translated line by line
from the Go source.  Go maps that the source only iterates or transmits are
modelled as association lists; `int64` is modelled as `Int`; Go `nil` errors
as `Option`/`Except` values.
-/

namespace Goutils

/-- Translation of stringToBool (objclient.go): with `defaults = true` the
string is true unless it is literally "false"; with `defaults = false` it is
true only when literally "true". -/
def stringToBool (s : String) (defaults : Bool) : Bool :=
  if defaults then s != "false" else s == "true"

/-- S3Config from the S3 adapter source: every field is a string, booleans
are carried as strings and resolved with stringToBool. -/
structure S3Config where
  Endpoint : String
  Region : String
  HTTPS : String
  Bucket : String
  PathStyleRequest : String
  KeyID : String
  Key : String
  V4Signature : String
  SSECKey : String

/-- Bucket lookup mode passed to the minio backend (DNS vs path style). -/
inductive BucketLookup
  | dns
  | path
deriving DecidableEq, Repr

/-- Credential scheme passed to the minio backend: NewStaticV2 or
NewStaticV4 depending on the resolved v4Signature flag. -/
inductive CredsKind
  | staticV2
  | staticV4
deriving DecidableEq, Repr

/-- Exactly the parameters NewS3Client hands to the backend constructor
(minio.New) together with the client state it fills in (bucket, sseckey):
an `Except.ok` carrying this record models reaching the backend-handle
construction with validation fully passed. -/
structure S3Validated where
  endpoint : String
  region : String
  creds : CredsKind
  https : Bool
  lookup : BucketLookup
  sseckey : Option String
  bucket : String
deriving DecidableEq, Repr

/-- Translation of NewS3Client up to the call of minio.New: resolves the
v4-signature flag, default region, default endpoint, credentials, the https
flag and the bucket-lookup mode, then validates the SSE-C key (byte length
32, v4 signature, https — in that order).  `Except.error` is a return before
any backend handle is created; `Except.ok` carries the parameters the
backend constructor is then invoked with. -/
def NewS3Client (config : S3Config) : Except String S3Validated :=
  let v4Signature := stringToBool config.V4Signature false
  let region := if v4Signature && config.Region == "" then "us-east-1" else config.Region
  let endpoint :=
    if config.Endpoint == "" then
      if region != "" then "s3." ++ region ++ ".amazonaws.com" else "s3.amazonaws.com"
    else config.Endpoint
  let creds := if v4Signature then CredsKind.staticV4 else CredsKind.staticV2
  let https := stringToBool config.HTTPS true
  let lookup := if stringToBool config.PathStyleRequest false
    then BucketLookup.path else BucketLookup.dns
  if config.SSECKey != "" then
    if config.SSECKey.utf8ByteSize != 32 then
      Except.error "length of SSE-C key must be 32 bytes"
    else if !v4Signature then
      Except.error "SSE-C key requires v4 signature"
    else if !https then
      Except.error "SSE-C key requires https"
    else
      Except.ok ⟨endpoint, region, creds, https, lookup, some config.SSECKey, config.Bucket⟩
  else
    Except.ok ⟨endpoint, region, creds, https, lookup, none, config.Bucket⟩

/-- WriteOptions: Size is required for S3 clients; Metadata is an optional
string-to-string mapping, modelled as an association list. -/
structure WriteOptions where
  Size : Int
  Metadata : List (String × String)

/-- Per-adapter client state relevant to the modelled calls: whether an
SSE-C key is configured (the bucket handle itself is external). -/
structure S3Client where
  sseckey : Option String

/-- Model of strings.ToLower on a string value: each character is
lower-cased in place (stated on the character list so that concrete
instances evaluate inside the kernel). -/
def goToLower (s : String) : String :=
  String.mk (s.data.map Char.toLower)

/-- Lower-casing of every metadata key, as the loop in both Write bodies
computes it (strings.ToLower applied to each key). -/
def lowerKeys (m : List (String × String)) : List (String × String) :=
  m.map (fun kv => (goToLower kv.1, kv.2))

/-- Outcome of the S3 Write body before the backend's own result comes
back: `rejected` models the early return of the size check, issued before
the timeout reader is constructed and before PutObject is invoked;
`attempted` models reaching PutObject, carrying the timeout-reader flag,
the UserMetadata actually transmitted, the size and whether server-side
encryption is attached. -/
inductive S3WriteOutcome
  | rejected (msg : String)
  | attempted (watchdogConstructed : Bool) (userMetadata : List (String × String))
      (size : Int) (withSSEC : Bool)
deriving DecidableEq, Repr

/-- Translation of the S3 adapter Write body: a nil options pointer or a
zero Size returns the error at once; otherwise a timeout reader wraps the
stream and PutObject is invoked.  The metadata block first builds the
lower-cased copy of o.Metadata and then reassigns opts.UserMetadata to the
original o.Metadata, so the transmitted mapping is the caller's original
one — lowerKeys o.Metadata is computed and discarded by the source. -/
def S3Client.Write (client : S3Client) (o : Option WriteOptions) : S3WriteOutcome :=
  match o with
  | none => S3WriteOutcome.rejected "the size option must be specified"
  | some w =>
    if w.Size == 0 then
      S3WriteOutcome.rejected "the size option must be specified"
    else
      let userMetadata :=
        if w.Metadata.length > 0 then
          let _lowered := lowerKeys w.Metadata
          let final := w.Metadata
          final
        else []
      S3WriteOutcome.attempted true userMetadata w.Size client.sseckey.isSome

/-- Translation of the OSS adapter Write metadata handling: each metadata
key is lower-cased and appended as an oss.Meta option (no discarding). -/
def OSSClientWriteMeta (o : Option WriteOptions) : List (String × String) :=
  match o with
  | none => []
  | some w => if w.Metadata.length > 0 then lowerKeys w.Metadata else []

/-- One entry of a listing result, as both adapters build it from a
provider object (time.Time modelled as an integer timestamp). -/
structure ObjectItem where
  Key : String
  Size : Int
  LastModified : Int
deriving DecidableEq, Repr

/-- Error value the minio StatObject call may produce, as seen through
minio.ToErrorResponse: an HTTP status code plus the error message.  `none`
is a nil error; ToErrorResponse of a nil error yields status code 0. -/
def toErrorResponseStatus : Option (Nat × String) → Nat
  | none => 0
  | some e => e.1

/-- Translation of the S3 adapter Exist body, taking the StatObject error
as input: a 404 status is translated to (false, nil); any other non-nil
error is surfaced; a nil error yields (true, nil). -/
def S3ClientExist (statErr : Option (Nat × String)) : Except String Bool :=
  if toErrorResponseStatus statErr == 404 then
    Except.ok false
  else
    match statErr with
    | some e => Except.error e.2
    | none => Except.ok true

/-- Translation of the OSS adapter Exist body: it returns exactly what the
SDK call IsObjectExist returns (the not-found-to-boolean translation lives
in the SDK, the adapter passes the pair through unmodified). -/
def OSSClientExist (sdk : Except String Bool) : Except String Bool := sdk

/-- One element of the error channel RemoveObjects returns: the key that
failed and the underlying cause. -/
structure RemoveObjectError where
  ObjectName : String
  Err : String
deriving DecidableEq, Repr

/-- One step of draining the RemoveObjects error channel: a first failure
is recorded formatted as "failed to remove KEY: CAUSE"; once one is
recorded, later failures are ignored. -/
def s3RemoveStep (acc : Option String) (e : RemoveObjectError) : Option String :=
  match acc with
  | none => some ("failed to remove " ++ e.ObjectName ++ ": " ++ e.Err)
  | some m => some m

/-- Translation of the S3 adapter Remove body: empty input returns nil
before any backend call; otherwise every key is sent to RemoveObjects and
the error channel is drained with s3RemoveStep, keeping the first
failure. -/
def S3ClientRemove (keys : List String) (backendErrs : List RemoveObjectError) :
    Option String :=
  if keys.length = 0 then none
  else backendErrs.foldl s3RemoveStep none

/-- Translation of the OSS adapter Remove body: empty input returns nil;
otherwise the whole key list goes to the SDK batch call DeleteObjects and
its error is returned unmodified (no per-key wrapping). -/
def OSSClientRemove (keys : List String) (sdk : Except String Unit) : Option String :=
  if keys.length = 0 then none
  else
    match sdk with
    | Except.ok _ => none
    | Except.error e => some e

/-- One value received from the minio ListObjects channel: either an object
(nil Err) or an error entry. -/
inductive S3ListEntry
  | obj (item : ObjectItem)
  | err (e : String)
deriving DecidableEq, Repr

/-- One step of draining the ListObjects channel: an error entry stores the
error in the local err variable and continues; an object entry is appended
to the accumulated items. -/
def s3ListStep (acc : List ObjectItem × Option String) (entry : S3ListEntry) :
    List ObjectItem × Option String :=
  match entry with
  | S3ListEntry.err e => (acc.1, some e)
  | S3ListEntry.obj it => (acc.1 ++ [it], acc.2)

/-- Translation of the S3 adapter List body: the channel is drained to the
end; an entry with non-nil Err sets the local err variable and the loop
continues; afterwards, a non-nil err is returned with a nil item slice,
otherwise the accumulated items are returned. -/
def S3ClientList (objs : List S3ListEntry) : Except String (List ObjectItem) :=
  let folded := objs.foldl s3ListStep ([], none)
  match folded.2 with
  | some e => Except.error e
  | none => Except.ok folded.1

/-- One page returned by the OSS SDK call ListObjectsV2. -/
structure OSSPage where
  Objects : List ObjectItem
  IsTruncated : Bool
  NextContinuationToken : String
deriving DecidableEq, Repr

/-- The request the OSS adapter List body issues on each iteration: the
listing target, the fixed MaxKeys page size, and the continuation token
carried from the previous response (empty on the first iteration). -/
structure OSSListRequest where
  target : String
  maxKeys : Nat
  token : String
deriving DecidableEq, Repr

/-- Result of the OSS List loop in the fuel-indexed model: `done` carries
the accumulated items of a loop that hit a non-truncated page, `failed`
carries a ListObjectsV2 error returned with a nil item slice, and
`outOfFuel` marks that the modelled provider kept reporting truncation past
the supplied fuel (the source loop would still be running). -/
inductive OSSListResult
  | done (items : List ObjectItem)
  | failed (e : String)
  | outOfFuel
deriving DecidableEq, Repr

/-- Translation of the loop in the OSS adapter List body: each iteration
issues ListObjectsV2 with MaxKeys 1000 and the carried token; an SDK error
returns (nil, err) at once, discarding `items`; otherwise the page's
objects are appended and the loop continues with the page's
NextContinuationToken exactly when IsTruncated holds. -/
def ossListLoop (backend : OSSListRequest → Except String OSSPage) (target : String)
    (token : String) (items : List ObjectItem) : Nat → OSSListResult
  | 0 => OSSListResult.outOfFuel
  | fuel + 1 =>
    match backend ⟨target, 1000, token⟩ with
    | Except.error e => OSSListResult.failed e
    | Except.ok page =>
      let items := items ++ page.Objects
      if page.IsTruncated then
        ossListLoop backend target page.NextContinuationToken items fuel
      else
        OSSListResult.done items

/-- Translation of the OSS adapter List body: the loop starts with an empty
continuation token and an empty item accumulator. -/
def OSSClientList (backend : OSSListRequest → Except String OSSPage) (target : String)
    (fuel : Nat) : OSSListResult :=
  ossListLoop backend target "" [] fuel

/-- The chain of pages the provider serves along the continuation tokens,
starting from `token`: it follows NextContinuationToken while IsTruncated
holds and ends at the first non-truncated page; `none` when an error is hit
or the chain does not close within the fuel. -/
def ossPages (backend : OSSListRequest → Except String OSSPage) (target : String)
    (token : String) : Nat → Option (List OSSPage)
  | 0 => none
  | fuel + 1 =>
    match backend ⟨target, 1000, token⟩ with
    | Except.error _ => none
    | Except.ok page =>
      if page.IsTruncated then
        (ossPages backend target page.NextContinuationToken fuel).map
          (fun rest => page :: rest)
      else
        some [page]

/-- Shared state of the TimeoutReader as its timer loop sees it at a tick:
the closed flag and the byte counter (atomic Bool and Int64 in the
source). -/
structure TimerState where
  closed : Bool
  readed : Int
deriving DecidableEq, Repr

/-- What one iteration of the timer loop does after the tick fires:
return without cancelling (closed observed), cancel and return (counter
still zero), or continue into the next iteration with the swapped-out
counter reset to zero. -/
inductive TickOutcome
  | stopClosed
  | stopCancelled
  | continueLoop (s : TimerState)
deriving DecidableEq, Repr

/-- Translation of one iteration of TimeoutReader.timer: after the 30-second
tick, a set closed flag returns from the loop; otherwise readed.Swap(0)
yields the bytes read since the last check and zeroes the counter; a zero
value invokes cancel and returns, a non-zero value continues the loop. -/
def timerTick (s : TimerState) : TickOutcome :=
  if s.closed then
    TickOutcome.stopClosed
  else
    let readed := s.readed
    if readed == 0 then
      TickOutcome.stopCancelled
    else
      TickOutcome.continueLoop ⟨s.closed, 0⟩

/-- State of a TimeoutReader relevant to Close: the closed flag, whether
the cancel function has been invoked, the optional auxiliary closer and the
error its Close would return, and whether it has been closed. -/
structure ReaderState where
  closed : Bool
  cancelCalled : Bool
  auxCloser : Option String
  auxClosed : Bool
deriving DecidableEq, Repr

/-- Translation of TimeoutReader.Close: stores true into the closed flag,
invokes cancel, closes the auxiliary closer when present with its error
discarded, and returns nil unconditionally (modelled as the `none` in the
result pair). -/
def TimeoutReaderClose (st : ReaderState) : ReaderState × Option String :=
  let st1 : ReaderState := { st with closed := true, cancelCalled := true }
  let st2 : ReaderState :=
    match st1.auxCloser with
    | some _ => { st1 with auxClosed := true }
    | none => st1
  (st2, none)

/-- Configuration used to instantiate the SSE-C validation theorem: a
32-byte key with v4 signature selected and https left at its default. -/
def ssecTestConfig : S3Config :=
  ⟨"", "", "", "bucket", "", "id", "secret", "true", "0123456789abcdef0123456789abcdef"⟩

/-- Backend stub whose ListObjectsV2 always fails, used to instantiate the
listing-error theorem. -/
def failBackend : OSSListRequest → Except String OSSPage :=
  fun _ => Except.error "boom"

/-- First page served by the two-page backend stub: truncated, pointing at
token "t1". -/
def pageOne : OSSPage := ⟨[⟨"p/a", 1, 10⟩, ⟨"p/b", 2, 20⟩], true, "t1"⟩

/-- Second page served by the two-page backend stub: final page. -/
def pageTwo : OSSPage := ⟨[⟨"p/c", 3, 30⟩], false, ""⟩

/-- Backend stub serving a two-page listing keyed by continuation token,
used to instantiate the pagination theorem. -/
def twoPageBackend : OSSListRequest → Except String OSSPage :=
  fun r =>
    if r.token == "" then Except.ok pageOne
    else if r.token == "t1" then Except.ok pageTwo
    else Except.error "bad token"

end Goutils

namespace Goutils

/-- Claim C8: stringToBool with default enabled is true exactly when the
input is not literally "false", and with default disabled is true exactly
when the input is literally "true" (case-sensitive literal comparison). -/
theorem stringToBool_spec (s : String) :
    (stringToBool s true = true ↔ s ≠ "false") ∧
    (stringToBool s false = true ↔ s = "true") := by
  constructor
  · simp [stringToBool]
  · simp [stringToBool]

/-- Witness for claim C8 at the concrete input "x". -/
theorem stringToBool_spec_witness :
    (stringToBool "x" true = true ↔ ("x" : String) ≠ "false") ∧
    (stringToBool "x" false = true ↔ ("x" : String) = "true") :=
  stringToBool_spec "x"

/-- Claim C3: with a non-empty SSE-C key, NewS3Client reaches backend-handle
construction exactly when the key is 32 bytes, the v4 signature scheme is
selected and the transport is https; and a key of byte length other than 32
is rejected with the length error regardless of the other settings. -/
theorem newS3Client_ssec_validation (config : S3Config) (hk : config.SSECKey ≠ "") :
    ((∃ v, NewS3Client config = Except.ok v) ↔
      (config.SSECKey.utf8ByteSize = 32 ∧
        stringToBool config.V4Signature false = true ∧
        stringToBool config.HTTPS true = true)) ∧
    (config.SSECKey.utf8ByteSize ≠ 32 →
      NewS3Client config = Except.error "length of SSE-C key must be 32 bytes") := by
  have hk' : (config.SSECKey != "") = true := by simpa using hk
  simp only [NewS3Client, hk', if_true]
  split_ifs with h1 h2 h3 <;> simp_all

/-- Witness for claim C3 at a concrete configuration. -/
theorem newS3Client_ssec_validation_witness :
    ((∃ v, NewS3Client ssecTestConfig = Except.ok v) ↔
      (ssecTestConfig.SSECKey.utf8ByteSize = 32 ∧
        stringToBool ssecTestConfig.V4Signature false = true ∧
        stringToBool ssecTestConfig.HTTPS true = true)) ∧
    (ssecTestConfig.SSECKey.utf8ByteSize ≠ 32 →
      NewS3Client ssecTestConfig = Except.error "length of SSE-C key must be 32 bytes") :=
  newS3Client_ssec_validation ssecTestConfig (by decide)

/-- Claim C4: the S3 Write body rejects a nil options pointer and a zero
size with an immediate error, issued before the timeout reader is built and
before PutObject is called (the `rejected` constructor models that early
return); with any non-zero size the check passes and the upload is
attempted. -/
theorem s3Write_size_check (client : S3Client) :
    (S3Client.Write client none =
      S3WriteOutcome.rejected "the size option must be specified") ∧
    (∀ w : WriteOptions, w.Size = 0 → S3Client.Write client (some w) =
      S3WriteOutcome.rejected "the size option must be specified") ∧
    (∀ w : WriteOptions, w.Size ≠ 0 → ∃ meta, S3Client.Write client (some w) =
      S3WriteOutcome.attempted true meta w.Size client.sseckey.isSome) := by
  refine ⟨rfl, ?_, ?_⟩
  · intro w hw
    simp [S3Client.Write, hw]
  · intro w hw
    refine ⟨if w.Metadata.length > 0 then w.Metadata else [], ?_⟩
    simp only [S3Client.Write]
    rw [if_neg (by simpa using hw)]

/-- Witness for claim C4 at a client without SSE-C and concrete options. -/
theorem s3Write_size_check_witness :
    (S3Client.Write ⟨none⟩ none =
      S3WriteOutcome.rejected "the size option must be specified") ∧
    ((⟨0, []⟩ : WriteOptions).Size = 0 → S3Client.Write ⟨none⟩ (some ⟨0, []⟩) =
      S3WriteOutcome.rejected "the size option must be specified") ∧
    ((⟨4, []⟩ : WriteOptions).Size ≠ 0 → ∃ meta, S3Client.Write ⟨none⟩ (some ⟨4, []⟩) =
      S3WriteOutcome.attempted true meta 4 false) :=
  ⟨(s3Write_size_check ⟨none⟩).1,
    fun h => (s3Write_size_check ⟨none⟩).2.1 ⟨0, []⟩ h,
    fun h => (s3Write_size_check ⟨none⟩).2.2 ⟨4, []⟩ h⟩

/-- Claim C5: one iteration of the timer loop returns without cancelling as
soon as the closed flag is observed (so the loop ends within one interval
of Close), cancels and stops when a full interval passed with the counter
still zero on an unclosed reader, and otherwise zeroes the counter and
continues. -/
theorem timer_tick_spec (s : TimerState) :
    (s.closed = true → timerTick s = TickOutcome.stopClosed) ∧
    (s.closed = false → s.readed = 0 → timerTick s = TickOutcome.stopCancelled) ∧
    (s.closed = false → s.readed ≠ 0 →
      timerTick s = TickOutcome.continueLoop ⟨false, 0⟩) := by
  refine ⟨fun h => by simp [timerTick, h], fun h h0 => by simp [timerTick, h, h0],
    fun h h0 => ?_⟩
  simp only [timerTick, h]
  rw [if_neg (by simp), if_neg (by simpa using h0)]

/-- Witness for claim C5 at an unclosed state with five unread bytes. -/
theorem timer_tick_spec_witness :
    ((⟨false, 5⟩ : TimerState).closed = true →
      timerTick ⟨false, 5⟩ = TickOutcome.stopClosed) ∧
    ((⟨false, 5⟩ : TimerState).closed = false → (⟨false, 5⟩ : TimerState).readed = 0 →
      timerTick ⟨false, 5⟩ = TickOutcome.stopCancelled) ∧
    ((⟨false, 5⟩ : TimerState).closed = false → (⟨false, 5⟩ : TimerState).readed ≠ 0 →
      timerTick ⟨false, 5⟩ = TickOutcome.continueLoop ⟨false, 0⟩) :=
  timer_tick_spec ⟨false, 5⟩

/-- Claim C9: the S3 Exist body maps a 404 StatObject failure to (false,
nil), surfaces every other failure as the error itself, and maps a nil
error to (true, nil); the OSS Exist body returns the provider verdict
unchanged, so the provider's not-found boolean is passed through as a
non-error result. -/
theorem exist_notfound_translation :
    (∀ msg, S3ClientExist (some (404, msg)) = Except.ok false) ∧
    (∀ code msg, code ≠ 404 → S3ClientExist (some (code, msg)) = Except.error msg) ∧
    (S3ClientExist none = Except.ok true) ∧
    (∀ r, OSSClientExist r = r) := by
  refine ⟨fun msg => rfl, fun code msg hc => ?_, rfl, fun r => rfl⟩
  simp only [S3ClientExist, toErrorResponseStatus]
  rw [if_neg (by simpa using hc)]

/-- Witness for claim C9 at concrete provider responses. -/
theorem exist_notfound_translation_witness :
    S3ClientExist (some (404, "no such key")) = Except.ok false ∧
    S3ClientExist (some (500, "boom")) = Except.error "boom" ∧
    S3ClientExist none = Except.ok true ∧
    OSSClientExist (Except.ok false) = Except.ok false :=
  ⟨exist_notfound_translation.1 "no such key",
    exist_notfound_translation.2.1 500 "boom" (by decide),
    exist_notfound_translation.2.2.1,
    exist_notfound_translation.2.2.2 (Except.ok false)⟩

/-- Claim C10: TimeoutReader.Close returns nil on every call, including a
repeated call; it sets the closed flag and invokes cancel; a present
auxiliary closer is closed with its error discarded, and with no auxiliary
closer the call still succeeds, touching nothing else. -/
theorem close_always_nil (st : ReaderState) :
    (TimeoutReaderClose st).2 = none ∧
    (TimeoutReaderClose st).1.closed = true ∧
    (TimeoutReaderClose st).1.cancelCalled = true ∧
    (TimeoutReaderClose (TimeoutReaderClose st).1).2 = none ∧
    (∀ e, st.auxCloser = some e → (TimeoutReaderClose st).1.auxClosed = true) ∧
    (st.auxCloser = none → (TimeoutReaderClose st).1.auxClosed = st.auxClosed) := by
  cases h : st.auxCloser <;>
    simp_all [TimeoutReaderClose]

/-- Witness for claim C10 at a reader whose auxiliary closer would fail. -/
theorem close_always_nil_witness :
    (TimeoutReaderClose ⟨false, false, some "aux close failed", false⟩).2 = none ∧
    (TimeoutReaderClose ⟨false, false, some "aux close failed", false⟩).1.closed = true :=
  ⟨(close_always_nil ⟨false, false, some "aux close failed", false⟩).1,
    (close_always_nil ⟨false, false, some "aux close failed", false⟩).2.1⟩

/-- Helper: once the accumulator of the channel drain is non-nil, or an
error entry lies ahead, the drained result is non-nil. -/
theorem s3ListStep_foldl_snd_some (objs : List S3ListEntry)
    (acc : List ObjectItem × Option String)
    (h : acc.2 ≠ none ∨ ∃ e, S3ListEntry.err e ∈ objs) :
    (objs.foldl s3ListStep acc).2 ≠ none := by
  induction objs generalizing acc with
  | nil =>
    simp only [List.foldl_nil]
    rcases h with h | ⟨e, he⟩
    · exact h
    · simp at he
  | cons x xs ih =>
    simp only [List.foldl_cons]
    apply ih
    cases x with
    | err e =>
      left
      simp [s3ListStep]
    | obj it =>
      rcases h with h | ⟨e, he⟩
      · left
        simpa [s3ListStep] using h
      · right
        rcases List.mem_cons.mp he with h1 | h1
        · simp at h1
        · exact ⟨e, h1⟩

/-- Claim C6: an error met while accumulating a listing makes the call
return the error with a nil item sequence — in the S3 adapter any error
entry on the channel forces the Except.error return (whose item slice is
nil), and in the OSS adapter a failing page fetch returns the error at
once, discarding every item accumulated from earlier pages. -/
theorem list_error_discards_pages :
    (∀ objs e, S3ListEntry.err e ∈ objs →
      ∃ m, S3ClientList objs = Except.error m) ∧
    (∀ backend target token items fuel e,
      backend ⟨target, 1000, token⟩ = Except.error e →
      ossListLoop backend target token items (fuel + 1) = OSSListResult.failed e) := by
  constructor
  · intro objs e he
    have h := s3ListStep_foldl_snd_some objs ([], none) (Or.inr ⟨e, he⟩)
    obtain ⟨m, hm⟩ := Option.ne_none_iff_exists.mp h
    refine ⟨m, ?_⟩
    simp only [S3ClientList]
    rw [← hm]
  · intro backend target token items fuel e hb
    simp [ossListLoop, hb]

/-- Witness for claim C6 at a concrete channel and a failing page fetch. -/
theorem list_error_discards_pages_witness :
    (∃ m, S3ClientList [S3ListEntry.obj ⟨"k", 1, 0⟩, S3ListEntry.err "x"] =
      Except.error m) ∧
    ossListLoop failBackend "p" "" [⟨"k", 1, 0⟩] 3 = OSSListResult.failed "boom" :=
  ⟨list_error_discards_pages.1 _ "x" (by decide),
    list_error_discards_pages.2 failBackend "p" "" [⟨"k", 1, 0⟩] 2 "boom" rfl⟩

/-- Helper: whenever the token chain closes into a page list within the
fuel, the List loop returns exactly the accumulator followed by the
concatenation of the chain's objects. -/
theorem ossListLoop_eq_done (backend : OSSListRequest → Except String OSSPage)
    (target : String) :
    ∀ (fuel : Nat) (token : String) (items : List ObjectItem) (pages : List OSSPage),
      ossPages backend target token fuel = some pages →
      ossListLoop backend target token items fuel =
        OSSListResult.done (items ++ (pages.map OSSPage.Objects).flatten) := by
  intro fuel
  induction fuel with
  | zero =>
    intro token items pages h
    simp [ossPages] at h
  | succ n ih =>
    intro token items pages h
    simp only [ossPages] at h
    simp only [ossListLoop]
    cases hb : backend ⟨target, 1000, token⟩ with
    | error e =>
      rw [hb] at h
      simp at h
    | ok page =>
      rw [hb] at h
      simp only at h
      dsimp only
      by_cases ht : page.IsTruncated = true
      · rw [if_pos ht] at h ⊢
        obtain ⟨rest, hrest, hpages⟩ := Option.map_eq_some'.mp h
        subst hpages
        rw [ih _ _ rest hrest]
        simp [List.append_assoc]
      · rw [if_neg ht] at h ⊢
        obtain rfl : [page] = pages := Option.some.inj h
        simp

/-- Helper: a closed token chain is non-empty, every page before the last
reports truncation, and the last page reports no truncation. -/
theorem ossPages_shape (backend : OSSListRequest → Except String OSSPage)
    (target : String) :
    ∀ (fuel : Nat) (token : String) (pages : List OSSPage),
      ossPages backend target token fuel = some pages →
      pages ≠ [] ∧ (∀ p ∈ pages.dropLast, p.IsTruncated = true) ∧
      (∃ lastPage, pages.getLast? = some lastPage ∧ lastPage.IsTruncated = false) := by
  intro fuel
  induction fuel with
  | zero =>
    intro token pages h
    simp [ossPages] at h
  | succ n ih =>
    intro token pages h
    simp only [ossPages] at h
    cases hb : backend ⟨target, 1000, token⟩ with
    | error e =>
      rw [hb] at h
      simp at h
    | ok page =>
      rw [hb] at h
      simp only at h
      by_cases ht : page.IsTruncated = true
      · rw [if_pos ht] at h
        obtain ⟨rest, hrest, hpages⟩ := Option.map_eq_some'.mp h
        subst hpages
        obtain ⟨hne, hmid, lastPage, hlast, hflag⟩ := ih _ rest hrest
        obtain ⟨b, l, rfl⟩ := List.exists_cons_of_ne_nil hne
        refine ⟨by simp, ?_, lastPage, ?_, hflag⟩
        · intro p hp
          rw [List.dropLast_cons₂] at hp
          rcases List.mem_cons.mp hp with rfl | hp
          · exact ht
          · exact hmid p hp
        · rw [List.getLast?_cons_cons]
          exact hlast
      · rw [if_neg ht] at h
        obtain rfl : [page] = pages := Option.some.inj h
        exact ⟨by simp, by simp, page, by simp, by simpa using ht⟩

/-- Claim C7: when the provider's token chain from the empty token closes
within the fuel, the OSS List body returns exactly the in-order
concatenation of every chained page's objects — each request carrying page
size 1000 and the previous response's continuation token — and the chain
ends precisely at the first page reported not truncated (all earlier pages
are truncated). -/
theorem ossList_pagination (backend : OSSListRequest → Except String OSSPage)
    (target : String) (fuel : Nat) (pages : List OSSPage)
    (h : ossPages backend target "" fuel = some pages) :
    OSSClientList backend target fuel =
      OSSListResult.done ((pages.map OSSPage.Objects).flatten) ∧
    pages ≠ [] ∧
    (∀ p ∈ pages.dropLast, p.IsTruncated = true) ∧
    (∃ lastPage, pages.getLast? = some lastPage ∧ lastPage.IsTruncated = false) := by
  refine ⟨?_, ossPages_shape backend target fuel "" pages h⟩
  have hd := ossListLoop_eq_done backend target fuel "" [] pages h
  simpa [OSSClientList] using hd

/-- Witness for claim C7 at the two-page backend stub. -/
theorem ossList_pagination_witness :
    OSSClientList twoPageBackend "p/" 2 =
      OSSListResult.done (([pageOne, pageTwo].map OSSPage.Objects).flatten) ∧
    ([pageOne, pageTwo] : List OSSPage) ≠ [] ∧
    (∀ p ∈ ([pageOne, pageTwo] : List OSSPage).dropLast, p.IsTruncated = true) ∧
    (∃ lastPage, ([pageOne, pageTwo] : List OSSPage).getLast? = some lastPage ∧
      lastPage.IsTruncated = false) :=
  ossList_pagination twoPageBackend "p/" 2 [pageOne, pageTwo] (by rfl)

/-- Helper: draining the rest of the error channel never replaces an
already recorded first failure. -/
theorem s3RemoveStep_foldl_keeps_first (l : List RemoveObjectError) (m : String) :
    l.foldl s3RemoveStep (some m) = some m := by
  induction l with
  | nil => rfl
  | cons x xs ih => exact ih

/-- Counterexample to claim C2 as stated: on the OSS adapter a non-empty
batch whose provider call fails returns the provider error verbatim; at
this input the message is "boom", which does not identify the offending
key "a" (no character of the key even occurs in the message). -/
theorem remove_counterexample :
    OSSClientRemove ["a"] (Except.error "boom") = some "boom" ∧
    ("a" : String).data ≠ [] ∧
    (∀ c ∈ ("a" : String).data, c ∉ ("boom" : String).data) :=
  ⟨rfl, by decide, by decide⟩

/-- Claim C2 as amended: empty input is a no-op success on both adapters;
the S3 adapter drains the per-key error channel and returns the first
failure, formatted with the offending key and the underlying cause; the
OSS adapter hands the whole non-empty batch to the provider's multi-delete
and returns that call's error unmodified. -/
theorem remove_first_failure (keys : List String) (e : RemoveObjectError)
    (rest : List RemoveObjectError) (r : Except String Unit) (hk : keys ≠ []) :
    S3ClientRemove keys (e :: rest) =
      some ("failed to remove " ++ e.ObjectName ++ ": " ++ e.Err) ∧
    S3ClientRemove keys [] = none ∧
    S3ClientRemove [] (e :: rest) = none ∧
    OSSClientRemove keys r =
      (match r with | Except.ok _ => none | Except.error m => some m) ∧
    OSSClientRemove [] r = none := by
  have hk' : ¬keys.length = 0 := by simpa using hk
  refine ⟨?_, ?_, rfl, ?_, rfl⟩
  · simp only [S3ClientRemove, if_neg hk', List.foldl_cons]
    exact s3RemoveStep_foldl_keeps_first rest _
  · simp [S3ClientRemove, if_neg hk']
  · simp only [OSSClientRemove]
    rw [if_neg hk']

/-- Witness for claim C2 (amended) at two keys with both removals
failing. -/
theorem remove_first_failure_witness :
    S3ClientRemove ["k1", "k2"] [⟨"k1", "denied"⟩, ⟨"k2", "late"⟩] =
      some "failed to remove k1: denied" ∧
    S3ClientRemove ["k1", "k2"] [] = none ∧
    S3ClientRemove [] [⟨"k1", "denied"⟩, ⟨"k2", "late"⟩] = none ∧
    OSSClientRemove ["k1", "k2"] (Except.error "boom") = some "boom" ∧
    OSSClientRemove [] (Except.error "boom") = none :=
  remove_first_failure ["k1", "k2"] ⟨"k1", "denied"⟩ [⟨"k2", "late"⟩]
    (Except.error "boom") (by decide)

/-- Claim C1 (divergence witness): at a concrete S3 write with metadata key
"Foo", the UserMetadata handed to PutObject is the caller's original
mapping, not the lower-cased one — the S3 Write body reassigns
opts.UserMetadata to o.Metadata right after building the lower-cased copy,
discarding it; the OSS Write body does transmit the lower-cased keys. -/
theorem s3Write_metadata_not_lowered :
    S3Client.Write ⟨none⟩ (some ⟨4, [("Foo", "bar")]⟩) =
      S3WriteOutcome.attempted true [("Foo", "bar")] 4 false ∧
    lowerKeys [("Foo", "bar")] = [("foo", "bar")] ∧
    ((("Foo", "bar") : String × String)) ≠ ("foo", "bar") ∧
    OSSClientWriteMeta (some ⟨4, [("Foo", "bar")]⟩) = [("foo", "bar")] := by
  refine ⟨by decide, by decide, by decide, by decide⟩

end Goutils
